import Mathlib

/-!
Verification development for the jsdom window/document bootstrap pipeline and the
computed-style resolution engine.

The definitions below are a shallow embedding of the two source files:
a JSDOM entry module (class JSDOM with its constructor, transformOptions,
normalizeHTML, nodeLocation and the static fragment entry point) and
Window.js (the Window constructor and window.getComputedStyle).
JavaScript object identities are modelled as natural numbers, exceptions as
Except values, and the temporal behaviour of the JSDOM constructor as an
explicit event trace.
-/

namespace Jsdom

/-! ## External collaborator data: MIME types, cookie jars, URLs, hooks -/

/-- A parsed MIME type, as produced by the whatwg-mimetype collaborator from the
raw contentType string (the JSDOM constructor parses the string before calling
transformOptions, so options are modelled as carrying the parsed value).
charset models mimeType.parameters.get("charset"). -/
structure MIMEType where
  type : String
  subtype : String
  charset : Option String := none

/-- The essence of a MIME type, its type and subtype joined by a slash. -/
def MIMEType.essence (m : MIMEType) : String := m.type ++ "/" ++ m.subtype

/-- Classification used by transformOptions: a MIME type is HTML when its
essence is text/html (whatwg-mimetype isHTML). -/
def MIMEType.isHTML (m : MIMEType) : Bool := m.essence == "text/html"

/-- Classification used by transformOptions: a MIME type is XML when its
subtype ends in +xml or its essence is text/xml or application/xml
(whatwg-mimetype isXML). -/
def MIMEType.isXML (m : MIMEType) : Bool :=
  ("+xml".data.isSuffixOf m.subtype.data) || m.essence == "text/xml"
    || m.essence == "application/xml"

/-- The default MIME type used when options.contentType is undefined: text/html. -/
def defaultMIMEType : MIMEType := { type := "text", subtype := "html" }

/-- A cookie store; new CookieJar() constructs an empty one. -/
structure CookieJar where
  cookies : List (String × String)

/-- A newly constructed empty cookie jar, as built by new CookieJar() in
transformOptions when options.cookieJar is undefined. -/
def CookieJar.new : CookieJar := { cookies := [] }

/-- Modelled from the spec: absolute-URL parsing, the new URL(...) constructor
used by transformOptions for options.url and options.referrer; the URL parser
itself lives outside src/. A string parses exactly when it carries an explicit
scheme separator, and the parsed href is taken to be the string itself. -/
def parseURL (s : String) : Option String :=
  if s.data.contains ':' then some s else none

/-- The beforeParse hook value supplied by the caller; its observable behaviour
is modelled by the event trace of the constructor, so the value itself is
opaque. noop is the default hook installed by transformOptions. -/
inductive Hook where
  | noop
  | user (id : Nat)

/-! ## The input normalizer: normalizeHTML -/

/-- A byte input (Buffer, ArrayBuffer or typed array view; the constructor
converts the latter two to a Buffer before sniffing, so they are modelled as
one case). bomEncoding is the encoding named by a leading byte-order mark
if present, metaHint the encoding named by an in-document meta/XML declaration
scanned from the prefix of the bytes, and decode the whatwg-encoding decoder
from an encoding label to the decoded text. -/
structure ByteInput where
  bomEncoding : Option String
  metaHint : Option String
  decode : String → String

/-- Input to the JSDOM constructor: bytes, or any non-byte value carried as the
result of the String(html) conversion applied to it (a plain string is its own
conversion; numbers and arbitrary objects arrive stringified). -/
inductive Input where
  | bytes (b : ByteInput)
  | nonBytes (stringified : String)

/-- Modelled from the spec: the html-encoding-sniffer collaborator used by
normalizeHTML (its code lives outside src/). Resolution priority: a leading
byte-order mark, then the transport-layer charset label, then an in-document
hint from a bounded prefix, then the content-type-dependent default. It always
produces an encoding. -/
def sniffHTMLEncoding (b : ByteInput) (defaultEncoding : String)
    (transportLayerEncodingLabel : Option String) : String :=
  match b.bomEncoding with
  | some enc => enc
  | none =>
    match transportLayerEncodingLabel with
    | some enc => enc
    | none => b.metaHint.getD defaultEncoding

/-- The input normalizer normalizeHTML(html = "", mimeType): an omitted input
defaults to the empty string; byte input is sniffed (default encoding UTF-8
for XML content types, windows-1252 otherwise, with the transport label taken
from the MIME type's charset parameter) and decoded; any other input is
String-converted and the encoding label stays at its initial UTF-8. -/
def normalizeHTML (input : Option Input) (mimeType : MIMEType) : String × String :=
  match input.getD (Input.nonBytes "") with
  | Input.bytes b =>
    let encoding := sniffHTMLEncoding b
      (if mimeType.isXML then "UTF-8" else "windows-1252") mimeType.charset
    (b.decode encoding, encoding)
  | Input.nonBytes s => (s, "UTF-8")

/-! ## The configuration resolver: transformOptions -/

/-- The error kinds raised by the embedded code. rangeError models the
RangeError for a non-HTML non-XML content type, typeError the TypeError for
includeNodeLocations with an XML content type, urlParseError the TypeError
thrown by new URL on an unparseable string, usageError the Error thrown by
nodeLocation, and collaboratorError an exception escaping an external
collaborator (window creation, the beforeParse hook, the parser, close). -/
inductive JsdomError where
  | rangeError (message : String)
  | typeError (message : String)
  | urlParseError (message : String)
  | usageError (message : String)
  | collaboratorError (name : String)

/-- The error kinds the specification's taxonomy classifies as
Invalid-Configuration: the content-type RangeError and the
includeNodeLocations TypeError. URL-parse errors, usage errors and
collaborator exceptions are distinct kinds. -/
def JsdomError.isInvalidConfiguration : JsdomError → Bool
  | JsdomError.rangeError _ => true
  | JsdomError.typeError _ => true
  | _ => false

/-- Parse options handed to the parser; sourceCodeLocationInfo is the
location-tracking flag, scriptingEnabled is always false here. -/
structure ParseOptions where
  sourceCodeLocationInfo : Bool
  scriptingEnabled : Bool

/-- The windowOptions record assembled by transformOptions. The runScripts,
resourceLoader and virtualConsole pass-throughs are outside the claims and
are omitted. -/
structure WindowOptions where
  url : String
  referrer : String
  contentType : String
  parsingMode : String
  parseOptions : ParseOptions
  encoding : String
  cookieJar : CookieJar
  pretendToBeVisual : Bool
  storageQuota : Nat

/-- Caller-supplied options of the JSDOM constructor. contentType carries the
MIME type already parsed by the constructor (new MIMEType on the raw string);
none means the option was undefined. includeNodeLocations models the
truthiness test applied by transformOptions. -/
structure Options where
  contentType : Option MIMEType := none
  url : Option String := none
  referrer : Option String := none
  includeNodeLocations : Bool := false
  cookieJar : Option CookieJar := none
  beforeParse : Option Hook := none

/-- The record returned by transformOptions. -/
structure Transformed where
  windowOptions : WindowOptions
  beforeParse : Hook

/-- Resolution of an optional URL option: undefined yields the default,
a supplied string must parse (new URL(...)).href or the parse error is
thrown. -/
def resolveURL (o : Option String) (deflt : String) : Except JsdomError String :=
  match o with
  | none => Except.ok deflt
  | some u =>
    match parseURL u with
    | some href => Except.ok href
    | none => Except.error (JsdomError.urlParseError u)

/-- transformOptions(options, encoding, mimeType), in source order: first the
content-type classification check (RangeError when neither HTML nor XML), then
contentType := essence and parsingMode := html or xml, then url and referrer
resolution (url first), then the includeNodeLocations check (TypeError when
the parsing mode is xml, i.e. the MIME type is not HTML) and the parse-options
flag, then the cookie jar default and the beforeParse default. The source sets
parseOptions.sourceCodeLocationInfo to true exactly when includeNodeLocations
is truthy (and otherwise leaves the false default), which on the non-error
path equals options.includeNodeLocations. -/
def transformOptions (options : Options) (encoding : String) (mimeType : MIMEType) :
    Except JsdomError Transformed :=
  if !mimeType.isHTML && !mimeType.isXML then
    Except.error (JsdomError.rangeError
      (mimeType.essence ++ " was not a HTML or XML content type"))
  else
    match resolveURL options.url "about:blank", resolveURL options.referrer "" with
    | Except.error e, _ => Except.error e
    | Except.ok _, Except.error e => Except.error e
    | Except.ok url, Except.ok referrer =>
      if options.includeNodeLocations && !mimeType.isHTML then
        Except.error (JsdomError.typeError
          "Cannot set includeNodeLocations to true with an XML content type")
      else
        Except.ok {
          windowOptions := {
            url := url
            referrer := referrer
            contentType := mimeType.essence
            parsingMode := if mimeType.isHTML then "html" else "xml"
            parseOptions := {
              sourceCodeLocationInfo := options.includeNodeLocations
              scriptingEnabled := false }
            encoding := encoding
            cookieJar := options.cookieJar.getD CookieJar.new
            pretendToBeVisual := false
            storageQuota := 5000000 }
          beforeParse := options.beforeParse.getD Hook.noop }

/-! ## The object model bootstrap: Window and the JSDOM constructor -/

/-- The document implementation object created by documents.createWrapper with
the options the Window constructor passes through. defaultView is the identity
of the window's global proxy. -/
structure DocumentImpl where
  parsingMode : String
  contentType : String
  encoding : String
  cookieJar : CookieJar
  url : String
  referrer : String
  parseOptions : ParseOptions
  defaultView : Nat

/-- The window implementation state set up by the Window constructor.
Identities of window objects are natural numbers; the global proxy of a fresh
window is the window itself. Selection, the custom element registry, origin
and the interface surface are outside the claims and omitted. -/
structure WindowImpl where
  id : Nat
  _globalProxy : Nat
  _document : DocumentImpl
  _parent : Nat
  _top : Nat
  _frameElement : Option Nat
  _length : Nat

/-- The Window constructor: this._globalProxy = this; the document is created
with the listed pass-through options and defaultView = the global proxy;
this._parent = this._top = this._globalProxy (top-level window topology, to be
corrected later only by external frame code); this._frameElement = null;
this._length = 0. -/
def createWindow (options : WindowOptions) (id : Nat) : WindowImpl :=
  { id := id
    _globalProxy := id
    _document := {
      parsingMode := options.parsingMode
      contentType := options.contentType
      encoding := options.encoding
      cookieJar := options.cookieJar
      url := options.url
      referrer := options.referrer
      parseOptions := options.parseOptions
      defaultView := id }
    _parent := id
    _top := id
    _frameElement := none
    _length := 0 }

/-- The window getter: returns window._globalProxy. -/
def WindowImpl.window (w : WindowImpl) : Nat := w._globalProxy

/-- The self getter: returns window._globalProxy. -/
def WindowImpl.self (w : WindowImpl) : Nat := w._globalProxy

/-- The frames getter: returns window._globalProxy. -/
def WindowImpl.frames (w : WindowImpl) : Nat := w._globalProxy

/-- The parent getter: returns window._parent. -/
def WindowImpl.parent (w : WindowImpl) : Nat := w._parent

/-- The top getter: returns window._top. -/
def WindowImpl.top (w : WindowImpl) : Nat := w._top

/-- The length getter: returns window._length, the frame counter. -/
def WindowImpl.length (w : WindowImpl) : Nat := w._length

/-- Observable events of one run of the JSDOM constructor, in order of
occurrence: window allocation, document allocation (inside the Window
constructor), invocation of the beforeParse hook with its argument,
invocation of parseIntoDocument with the decoded markup, and
documentImpl.close(). -/
inductive Event where
  | windowCreated (windowId : Nat)
  | documentCreated (windowId : Nat)
  | beforeParseCalled (arg : Nat)
  | parsed (html : String)
  | documentClosed

/-- Failure switches for the external collaborators invoked by the
constructor; a true flag means the corresponding call throws. -/
structure Collaborators where
  createWindowFails : Bool
  beforeParseFails : Bool
  parseFails : Bool
  closeFails : Bool

/-- Collaborators that all succeed. -/
def noFailCollab : Collaborators :=
  { createWindowFails := false, beforeParseFails := false
    parseFails := false, closeFails := false }

/-- The tail of the JSDOM constructor after transformOptions: createWindow
(which also creates the document), options.beforeParse(this._globalProxy),
parseIntoDocument(html, documentImpl), documentImpl.close(). Each step emits
its event before a thrown collaborator exception aborts the run; the window is
produced only when every step returns. -/
def bootstrap (html : String) (t : Transformed) (c : Collaborators) (id : Nat) :
    List Event × Except JsdomError WindowImpl :=
  if c.createWindowFails then
    ([], Except.error (JsdomError.collaboratorError "createWindow"))
  else if c.beforeParseFails then
    ([Event.windowCreated id, Event.documentCreated id,
      Event.beforeParseCalled (createWindow t.windowOptions id)._globalProxy],
     Except.error (JsdomError.collaboratorError "beforeParse"))
  else if c.parseFails then
    ([Event.windowCreated id, Event.documentCreated id,
      Event.beforeParseCalled (createWindow t.windowOptions id)._globalProxy,
      Event.parsed html],
     Except.error (JsdomError.collaboratorError "parseIntoDocument"))
  else if c.closeFails then
    ([Event.windowCreated id, Event.documentCreated id,
      Event.beforeParseCalled (createWindow t.windowOptions id)._globalProxy,
      Event.parsed html, Event.documentClosed],
     Except.error (JsdomError.collaboratorError "close"))
  else
    ([Event.windowCreated id, Event.documentCreated id,
      Event.beforeParseCalled (createWindow t.windowOptions id)._globalProxy,
      Event.parsed html, Event.documentClosed],
     Except.ok (createWindow t.windowOptions id))

/-- The JSDOM constructor: parse the content type (text/html when undefined),
normalize the input, transform the options (any error propagates with nothing
built), then run the bootstrap steps. The source computes the MIME type and
the normalized pair once; they are written out here at each use. -/
def JSDOM.construct (input : Option Input) (opts : Options) (c : Collaborators)
    (id : Nat) : List Event × Except JsdomError WindowImpl :=
  match transformOptions opts
      (normalizeHTML input (opts.contentType.getD defaultMIMEType)).2
      (opts.contentType.getD defaultMIMEType) with
  | Except.error e => ([], Except.error e)
  | Except.ok t =>
    bootstrap (normalizeHTML input (opts.contentType.getD defaultMIMEType)).1 t c id

/-! ## nodeLocation -/

/-- Source-location metadata attached to a node by the parser when
sourceCodeLocationInfo was enabled. -/
structure SourceCodeLocation where
  startLine : Nat
  startCol : Nat
  endLine : Nat
  endCol : Nat

/-- A node implementation object, carrying its recorded source location
(none when the parser did not record one). -/
structure NodeImpl where
  sourceCodeLocation : Option SourceCodeLocation

/-- JSDOM.prototype.nodeLocation(node): throws unless the document's parse
options enabled sourceCodeLocationInfo, otherwise returns the node
implementation's sourceCodeLocation. The window state is returned unchanged
to make explicit that the call never mutates the object model. -/
def JSDOM.nodeLocation (w : WindowImpl) (node : NodeImpl) :
    Except JsdomError (Option SourceCodeLocation) × WindowImpl :=
  if w._document.parseOptions.sourceCodeLocationInfo = false then
    (Except.error (JsdomError.usageError
      "Location information was not saved for this jsdom. Use includeNodeLocations during creation."),
     w)
  else
    (Except.ok node.sourceCodeLocation, w)

/-! ## The static fragment entry point -/

/-- Module-level state of the fragment entry point: the lazily created shared
fragment document (none until first use), a supply of fresh document and node
identities, and a counter of full-document constructions performed (bumped by
each new JSDOM() run). -/
structure FragmentState where
  sharedFragmentDocument : Option Nat
  nextDocId : Nat
  nextNodeId : Nat
  constructions : Nat

/-- A document fragment: the template.content container returned by
JSDOM.fragment, owned by its backing document and holding the parsed markup. -/
structure DocumentFragment where
  nodeId : Nat
  ownerDocument : Nat
  contents : String

/-- JSDOM.fragment(string = ""): when the shared fragment document does not
exist yet, it is created by a full new JSDOM() construction (counted in
constructions) and cached; a fresh template element is then created in the
shared document, its innerHTML set to the markup, and its content fragment
returned. Subsequent calls reuse the cached document unchanged. -/
def JSDOM.fragment (string : String) (st : FragmentState) :
    DocumentFragment × FragmentState :=
  match st.sharedFragmentDocument with
  | some d =>
    ({ nodeId := st.nextNodeId, ownerDocument := d, contents := string },
     { st with nextNodeId := st.nextNodeId + 1 })
  | none =>
    ({ nodeId := st.nextNodeId, ownerDocument := st.nextDocId, contents := string },
     { sharedFragmentDocument := some st.nextDocId
       nextDocId := st.nextDocId + 1
       nextNodeId := st.nextNodeId + 1
       constructions := st.constructions + 1 })

/-! ## The style cascade resolver: getComputedStyle -/

/-- A CSS declaration block: property, value and priority triples in insertion
order with unique property names maintained by setProperty (the cssstyle
CSSStyleDeclaration collaborator). -/
abbrev Decl := List (String × String × String)

/-- CSSStyleDeclaration.setProperty: overwrite the entry for an existing
property in place, otherwise append a new entry. -/
def setProperty : Decl → String → String → String → Decl
  | [], property, value, priority => [(property, value, priority)]
  | e :: rest, property, value, priority =>
    if e.1 = property then (property, value, priority) :: rest
    else e :: setProperty rest property value priority

/-- CSSStyleDeclaration.getPropertyValue: the stored value, or the empty
string for an absent property. -/
def getPropertyValue : Decl → String → String
  | [], _ => ""
  | e :: rest, property =>
    if e.1 = property then e.2.1 else getPropertyValue rest property

/-- CSSStyleDeclaration.getPropertyPriority: the stored priority, or the empty
string for an absent property. -/
def getPropertyPriority : Decl → String → String
  | [], _ => ""
  | e :: rest, property =>
    if e.1 = property then e.2.2 else getPropertyPriority rest property

/-- Copy a list of declarations into a block with setProperty, in order. -/
def applyDecls (d : Decl) (l : List (String × String × String)) : Decl :=
  l.foldl (fun acc e => setProperty acc e.1 e.2.1 e.2.2) d

/-- The per-source copying loop of getComputedStyle: for each property name of
the source declaration block, setProperty(property,
source.getPropertyValue(property), source.getPropertyPriority(property)). -/
def applyStyleDeclaration (d : Decl) (style : Decl) : Decl :=
  applyDecls d (style.map fun e =>
    (e.1, getPropertyValue style e.1, getPropertyPriority style e.1))

/-- The resolved-value loop of getComputedStyle: for each property of the
fixed implemented set, setProperty(property, getResolvedValue(elt, property))
with no priority argument. -/
def applyResolvedValues (d : Decl) (resolvedProps : List String)
    (resolve : String → String) : Decl :=
  resolvedProps.foldl (fun acc property => setProperty acc property (resolve property) "") d

/-- A style rule as seen by getComputedStyle: its declaration block. -/
structure StyleRule where
  style : Decl

/-- An element as consumed by getComputedStyle: the style-sheet rules matching
it in encounter order (forEachMatchingSheetRuleOfElement), its inline style
declaration block (elt.style), and the external resolved-value algorithm
getResolvedValue(elt, property), modelled from the spec as an oracle carried
by the element since its code lives outside src/. -/
structure Element where
  matchedRules : List StyleRule
  style : Decl
  resolvedValue : String → String

/-- window.getComputedStyle(elt): start from an empty declaration, copy every
matching sheet rule's declarations in rule order, then overwrite every
property of the resolved-value-implemented set, then overwrite with every
inline style declaration. resolvedProps stands for
Object.keys(propertiesWithResolvedValueImplemented), a fixed set defined
outside src/. -/
def getComputedStyle (resolvedProps : List String) (elt : Element) : Decl :=
  applyStyleDeclaration
    (applyResolvedValues
      (elt.matchedRules.foldl (fun d rule => applyStyleDeclaration d rule.style) [])
      resolvedProps elt.resolvedValue)
    elt.style

/-! ## Lemmas about declaration blocks -/

/-- Looking up a property right after setting it yields the set value. -/
theorem getPropertyValue_setProperty_same (d : Decl) (p v pr : String) :
    getPropertyValue (setProperty d p v pr) p = v := by
  induction d with
  | nil => simp [setProperty, getPropertyValue]
  | cons e rest ih =>
    by_cases h : e.1 = p
    · simp [setProperty, h, getPropertyValue]
    · simp [setProperty, h, getPropertyValue, ih]

/-- Setting one property leaves the lookup of a different property unchanged. -/
theorem getPropertyValue_setProperty_other (d : Decl) (p q v pr : String) (h : q ≠ p) :
    getPropertyValue (setProperty d q v pr) p = getPropertyValue d p := by
  induction d with
  | nil => simp [setProperty, getPropertyValue, h]
  | cons e rest ih =>
    by_cases he : e.1 = q
    · simp [setProperty, getPropertyValue, he, h]
    · simp only [setProperty, he, if_false, getPropertyValue]
      by_cases hep : e.1 = p <;> simp [hep, ih]

/-- Copying declarations none of which mention a property leaves that
property's lookup unchanged. -/
theorem getPropertyValue_applyDecls_not_mem (l : List (String × String × String))
    (d : Decl) (p : String) (h : ∀ e ∈ l, e.1 ≠ p) :
    getPropertyValue (applyDecls d l) p = getPropertyValue d p := by
  revert h
  induction l generalizing d with
  | nil => intro h; rfl
  | cons e rest ih =>
    intro h
    have h1 : e.1 ≠ p := h e (List.mem_cons_self e rest)
    have h2 : ∀ x ∈ rest, x.1 ≠ p := fun x hx => h x (List.mem_cons_of_mem e hx)
    calc getPropertyValue (applyDecls d (e :: rest)) p
        = getPropertyValue (applyDecls (setProperty d e.1 e.2.1 e.2.2) rest) p := rfl
      _ = getPropertyValue (setProperty d e.1 e.2.1 e.2.2) p := ih _ h2
      _ = getPropertyValue d p := getPropertyValue_setProperty_other _ _ _ _ _ h1

/-- Copying a duplicate-free list of declarations makes each declared
property's lookup yield its declared value. -/
theorem getPropertyValue_applyDecls_mem (l : List (String × String × String))
    (d : Decl) (p v pr : String) (hmem : (p, v, pr) ∈ l)
    (hnd : (l.map (fun e => e.1)).Nodup) :
    getPropertyValue (applyDecls d l) p = v := by
  revert hmem hnd
  induction l generalizing d with
  | nil => intro hmem _; cases hmem
  | cons e rest ih =>
    intro hmem hnd
    have hnd1 : e.1 ∉ rest.map (fun x => x.1) := (List.nodup_cons.mp hnd).1
    have hnd2 : (rest.map (fun x => x.1)).Nodup := (List.nodup_cons.mp hnd).2
    rcases List.mem_cons.mp hmem with he | hm
    · have hrest : ∀ x ∈ rest, x.1 ≠ p := by
        intro x hx hc
        apply hnd1
        rw [← he]
        exact hc ▸ List.mem_map.mpr ⟨x, hx, rfl⟩
      calc getPropertyValue (applyDecls d (e :: rest)) p
          = getPropertyValue (applyDecls (setProperty d e.1 e.2.1 e.2.2) rest) p := rfl
        _ = getPropertyValue (setProperty d e.1 e.2.1 e.2.2) p :=
            getPropertyValue_applyDecls_not_mem rest _ p hrest
        _ = v := by rw [← he]; exact getPropertyValue_setProperty_same _ _ _ _
    · exact ih _ hm hnd2

/-- In a duplicate-free declaration block, lookup of a declared property
yields its declared value. -/
theorem getPropertyValue_mem (style : Decl) (p v pr : String)
    (hmem : (p, v, pr) ∈ style) (hnd : (style.map (fun e => e.1)).Nodup) :
    getPropertyValue style p = v := by
  induction style with
  | nil => cases hmem
  | cons e rest ih =>
    rcases List.mem_cons.mp hmem with he | hm
    · rw [← he]; simp [getPropertyValue]
    · have h1 : e.1 ≠ p := by
        intro hc
        exact (List.nodup_cons.mp hnd).1 (List.mem_map.mpr ⟨(p, v, pr), hm, hc.symm⟩)
      simp only [getPropertyValue, h1, if_false]
      exact ih hm (List.nodup_cons.mp hnd).2

/-- The per-source copying loop of getComputedStyle installs, for each
property of a duplicate-free source block, the source's value. -/
theorem getPropertyValue_applyStyleDeclaration_mem (d style : Decl) (p v pr : String)
    (hmem : (p, v, pr) ∈ style) (hnd : (style.map (fun e => e.1)).Nodup) :
    getPropertyValue (applyStyleDeclaration d style) p = v := by
  have hv : getPropertyValue style p = v := getPropertyValue_mem style p v pr hmem hnd
  have hmem2 : (p, getPropertyValue style p, getPropertyPriority style p) ∈
      style.map (fun e => (e.1, getPropertyValue style e.1, getPropertyPriority style e.1)) :=
    List.mem_map.mpr ⟨(p, v, pr), hmem, rfl⟩
  have hnd2 : ((style.map fun e =>
      (e.1, getPropertyValue style e.1, getPropertyPriority style e.1)).map
        (fun e => e.1)).Nodup := by
    rw [List.map_map]
    simpa [Function.comp] using hnd
  have hfinal := getPropertyValue_applyDecls_mem _ d p
    (getPropertyValue style p) (getPropertyPriority style p) hmem2 hnd2
  exact hfinal.trans hv

/-- The per-source copying loop leaves properties absent from the source
unchanged. -/
theorem getPropertyValue_applyStyleDeclaration_not_mem (d style : Decl) (p : String)
    (h : ∀ e ∈ style, e.1 ≠ p) :
    getPropertyValue (applyStyleDeclaration d style) p = getPropertyValue d p := by
  apply getPropertyValue_applyDecls_not_mem
  intro e he
  rcases List.mem_map.mp he with ⟨x, hx, rfl⟩
  exact h x hx

/-- The resolved-value loop leaves properties outside the implemented set
unchanged. -/
theorem getPropertyValue_applyResolvedValues_not_mem (rp : List String) (d : Decl)
    (p : String) (f : String → String) (h : p ∉ rp) :
    getPropertyValue (applyResolvedValues d rp f) p = getPropertyValue d p := by
  revert h
  induction rp generalizing d with
  | nil => intro _; rfl
  | cons q rest ih =>
    intro h
    have hq : q ≠ p := fun hc => h (hc ▸ List.mem_cons_self q rest)
    have hr : p ∉ rest := fun hc => h (List.mem_cons_of_mem q hc)
    calc getPropertyValue (applyResolvedValues (setProperty d q (f q) "") rest f) p
        = getPropertyValue (setProperty d q (f q) "") p := ih _ hr
      _ = getPropertyValue d p := getPropertyValue_setProperty_other _ _ _ _ _ hq

/-- The resolved-value loop installs, for each property of the implemented
set, the externally resolved value. -/
theorem getPropertyValue_applyResolvedValues_mem (rp : List String) (d : Decl)
    (p : String) (f : String → String) (h : p ∈ rp) :
    getPropertyValue (applyResolvedValues d rp f) p = f p := by
  revert h
  induction rp generalizing d with
  | nil => intro h; cases h
  | cons q rest ih =>
    intro h
    by_cases hr : p ∈ rest
    · exact ih _ hr
    · have hq : q = p := by
        rcases List.mem_cons.mp h with h1 | h2
        · exact h1.symm
        · exact absurd h2 hr
      subst hq
      calc getPropertyValue (applyResolvedValues (setProperty d q (f q) "") rest f) q
          = getPropertyValue (setProperty d q (f q) "") q :=
            getPropertyValue_applyResolvedValues_not_mem rest _ q f hr
        _ = f q := getPropertyValue_setProperty_same _ _ _ _

/-- C1: the computed-style query merges its three sources in fixed precedence:
matching sheet rules in encounter order, then the resolved-value-implemented
properties, then the element's inline style declaration; a property declared
both by a matching sheet rule and by the inline declaration comes out with the
inline value, a resolved-value property not overridden inline comes out with
the externally resolved value, and a property in neither later source keeps
the value accumulated from the sheet rules in rule encounter order. -/
theorem getComputedStyle_precedence (resolvedProps : List String) (elt : Element)
    (p v pr : String) :
    ((elt.style.map (fun e => e.1)).Nodup → (p, v, pr) ∈ elt.style →
      (∃ rule ∈ elt.matchedRules, ∃ e ∈ rule.style, e.1 = p) →
      getPropertyValue (getComputedStyle resolvedProps elt) p = v) ∧
    ((∀ e ∈ elt.style, e.1 ≠ p) → p ∈ resolvedProps →
      getPropertyValue (getComputedStyle resolvedProps elt) p = elt.resolvedValue p) ∧
    ((∀ e ∈ elt.style, e.1 ≠ p) → p ∉ resolvedProps →
      getPropertyValue (getComputedStyle resolvedProps elt) p =
        getPropertyValue
          (elt.matchedRules.foldl (fun d rule => applyStyleDeclaration d rule.style) []) p) := by
  refine ⟨fun hnd hmem _hrule => ?_, fun hni hmem => ?_, fun hni hnmem => ?_⟩
  · exact getPropertyValue_applyStyleDeclaration_mem _ _ _ _ _ hmem hnd
  · unfold getComputedStyle
    rw [getPropertyValue_applyStyleDeclaration_not_mem _ _ _ hni]
    exact getPropertyValue_applyResolvedValues_mem _ _ _ _ hmem
  · unfold getComputedStyle
    rw [getPropertyValue_applyStyleDeclaration_not_mem _ _ _ hni]
    exact getPropertyValue_applyResolvedValues_not_mem _ _ _ _ hnmem

/-- A demonstration element matched by a sheet rule declaring color red while
its inline style declares color blue. -/
def demoElt : Element :=
  { matchedRules := [{ style := [("color", "red", "")] }]
    style := [("color", "blue", "")]
    resolvedValue := fun _ => "resolved" }

/-- A demonstration element matched by a sheet rule declaring color red with
no inline style. -/
def demoElt2 : Element :=
  { matchedRules := [{ style := [("color", "red", "")] }]
    style := []
    resolvedValue := fun _ => "resolved" }

/-- Witness for C1 at concrete inputs: inline blue beats the sheet rule's red,
a resolved-value property takes the resolved value, and an untouched property
keeps the sheet-rule accumulation. -/
theorem getComputedStyle_precedence_witness :
    getPropertyValue (getComputedStyle ["width"] demoElt) "color" = "blue" ∧
    getPropertyValue (getComputedStyle ["width"] demoElt2) "width" = "resolved" ∧
    getPropertyValue (getComputedStyle [] demoElt2) "color" =
      getPropertyValue
        (demoElt2.matchedRules.foldl (fun d rule => applyStyleDeclaration d rule.style) [])
        "color" :=
  ⟨(getComputedStyle_precedence ["width"] demoElt "color" "blue" "").1
      (by decide) (by decide)
      ⟨{ style := [("color", "red", "")] }, List.mem_singleton.mpr rfl,
       ("color", "red", ""), List.mem_singleton.mpr rfl, rfl⟩,
   (getComputedStyle_precedence ["width"] demoElt2 "width" "resolved" "").2.1
      (by decide) (by decide),
   (getComputedStyle_precedence [] demoElt2 "color" "" "").2.2
      (by decide) (by decide)⟩

/-! ## Inversion lemmas for the constructor pipeline -/

/-- A successful bootstrap run pins down the produced window, forces every
collaborator step to have succeeded, and yields the full five-event trace. -/
theorem bootstrap_ok_inv (html : String) (t : Transformed) (c : Collaborators)
    (id : Nat) (w : WindowImpl) (h : (bootstrap html t c id).2 = Except.ok w) :
    w = createWindow t.windowOptions id ∧
    c.createWindowFails = false ∧ c.beforeParseFails = false ∧
    c.parseFails = false ∧ c.closeFails = false ∧
    (bootstrap html t c id).1 =
      [Event.windowCreated id, Event.documentCreated id, Event.beforeParseCalled id,
       Event.parsed html, Event.documentClosed] := by
  obtain ⟨b1, b2, b3, b4⟩ := c
  cases b1 <;> cases b2 <;> cases b3 <;> cases b4 <;>
    simp_all [bootstrap, createWindow]
  rw [← h]

/-- A successful construction factors through a successful transformOptions
and a fully successful bootstrap, with the full five-event trace. -/
theorem construct_ok_inv (input : Option Input) (opts : Options) (c : Collaborators)
    (id : Nat) (w : WindowImpl) (h : (JSDOM.construct input opts c id).2 = Except.ok w) :
    ∃ t, transformOptions opts
        (normalizeHTML input (opts.contentType.getD defaultMIMEType)).2
        (opts.contentType.getD defaultMIMEType) = Except.ok t ∧
      w = createWindow t.windowOptions id ∧
      c.createWindowFails = false ∧ c.beforeParseFails = false ∧
      c.parseFails = false ∧ c.closeFails = false ∧
      (JSDOM.construct input opts c id).1 =
        [Event.windowCreated id, Event.documentCreated id, Event.beforeParseCalled id,
         Event.parsed (normalizeHTML input (opts.contentType.getD defaultMIMEType)).1,
         Event.documentClosed] := by
  unfold JSDOM.construct at h ⊢
  split at h
  · simp at h
  · rename_i t heq
    simp only [heq]
    obtain ⟨hw, h1, h2, h3, h4, htrace⟩ := bootstrap_ok_inv _ _ _ _ _ h
    exact ⟨t, rfl, hw, h1, h2, h3, h4, htrace⟩

/-- On the non-error path, transformOptions resolves the parse-option
location flag to options.includeNodeLocations and the cookie jar to the
supplied one or a new empty jar. -/
theorem transformOptions_ok_inv (options : Options) (encoding : String)
    (mimeType : MIMEType) (t : Transformed)
    (h : transformOptions options encoding mimeType = Except.ok t) :
    t.windowOptions.parseOptions.sourceCodeLocationInfo = options.includeNodeLocations ∧
    t.windowOptions.cookieJar = options.cookieJar.getD CookieJar.new ∧
    t.windowOptions.encoding = encoding := by
  unfold transformOptions at h
  split at h
  · exact Except.noConfusion h
  · split at h
    · exact Except.noConfusion h
    · exact Except.noConfusion h
    · split at h
      · exact Except.noConfusion h
      · injection h with h2
        subst h2
        exact ⟨rfl, rfl, rfl⟩

/-- C2: during construction the beforeParse hook is invoked exactly once, with
the window's global proxy (what the window accessor exposes) as argument,
strictly after the window and document are created and strictly before the
markup is parsed; the document is closed only after the parser returns and the
constructor returns only after the close; a successful return moreover forces
every earlier step to have succeeded (a thrown step yields an error and no
window). -/
theorem construct_beforeParse_once (input : Option Input) (opts : Options)
    (c : Collaborators) (id : Nat) (w : WindowImpl)
    (h : (JSDOM.construct input opts c id).2 = Except.ok w) :
    (JSDOM.construct input opts c id).1 =
      [Event.windowCreated w.id, Event.documentCreated w.id,
       Event.beforeParseCalled (WindowImpl.window w),
       Event.parsed (normalizeHTML input (opts.contentType.getD defaultMIMEType)).1,
       Event.documentClosed] ∧
    WindowImpl.window w = w._globalProxy ∧
    ((JSDOM.construct input opts c id).1.countP fun e =>
        match e with
        | Event.beforeParseCalled _ => true
        | _ => false) = 1 ∧
    c.createWindowFails = false ∧ c.beforeParseFails = false ∧
    c.parseFails = false ∧ c.closeFails = false := by
  obtain ⟨t, htr, hw, h1, h2, h3, h4, htrace⟩ := construct_ok_inv input opts c id w h
  subst hw
  refine ⟨?_, rfl, ?_, h1, h2, h3, h4⟩
  · rw [htrace]; rfl
  · rw [htrace]; rfl

/-- Witness for C2: a default construction at window identity 7 produces
exactly the expected five-event trace. -/
theorem construct_beforeParse_once_witness :
    (JSDOM.construct none {} noFailCollab 7).1 =
      [Event.windowCreated 7, Event.documentCreated 7, Event.beforeParseCalled 7,
       Event.parsed "", Event.documentClosed] := by
  have h := construct_beforeParse_once none {} noFailCollab 7
    (createWindow
      { url := "about:blank", referrer := "", contentType := "text/html"
        parsingMode := "html"
        parseOptions := { sourceCodeLocationInfo := false, scriptingEnabled := false }
        encoding := "UTF-8", cookieJar := CookieJar.new
        pretendToBeVisual := false, storageQuota := 5000000 } 7) rfl
  exact h.1

/-- C3: a freshly constructed window is its own global proxy: the self, top,
parent and frames getters all return the global proxy (so self, top and
parent coincide and frames equals self), and the frame counter length is 0. -/
theorem createWindow_self_topology (options : WindowOptions) (id : Nat) :
    (createWindow options id).self = (createWindow options id)._globalProxy ∧
    (createWindow options id).self = (createWindow options id).top ∧
    (createWindow options id).self = (createWindow options id).parent ∧
    (createWindow options id).frames = (createWindow options id).self ∧
    (createWindow options id).length = 0 ∧
    (createWindow options id)._length = 0 :=
  ⟨rfl, rfl, rfl, rfl, rfl, rfl⟩

/-- C4: a construction whose supplied content type classifies as neither HTML
nor XML fails synchronously with the RangeError; the trace is empty, so no
window or document object is ever built, and no window is returned. -/
theorem construct_invalid_content_type (input : Option Input) (opts : Options)
    (c : Collaborators) (id : Nat) (mt : MIMEType)
    (hct : opts.contentType = some mt)
    (hhtml : mt.isHTML = false) (hxml : mt.isXML = false) :
    JSDOM.construct input opts c id =
      ([], Except.error (JsdomError.rangeError
        (mt.essence ++ " was not a HTML or XML content type"))) := by
  have htr : transformOptions opts (normalizeHTML input mt).2 mt =
      Except.error (JsdomError.rangeError
        (mt.essence ++ " was not a HTML or XML content type")) := by
    unfold transformOptions
    rw [hhtml, hxml]
    rfl
  unfold JSDOM.construct
  rw [hct]
  simp only [Option.getD_some]
  rw [htr]

/-- The MIME type text/plain: neither HTML nor XML. -/
def mtPlain : MIMEType := { type := "text", subtype := "plain" }

/-- Options supplying content type text/plain and nothing else. -/
def cOptsPlain : Options := { contentType := some mtPlain }

/-- Witness for C4: constructing with content type text/plain fails with the
RangeError and an empty trace. -/
theorem construct_invalid_content_type_witness :
    JSDOM.construct none cOptsPlain noFailCollab 0 =
      ([], Except.error (JsdomError.rangeError
        (mtPlain.essence ++ " was not a HTML or XML content type"))) :=
  construct_invalid_content_type none cOptsPlain noFailCollab 0 mtPlain rfl
    (by decide) (by decide)

/-- C5: the input normalizer always resolves an encoding: non-byte input is
used verbatim with label UTF-8 and no sniffing, and byte input with no
byte-order mark, no transport charset label and no in-document hint resolves
to the content-type-dependent default, UTF-8 for XML content types and
windows-1252 otherwise. -/
theorem normalizeHTML_encoding (s : String) (m : MIMEType) (b : ByteInput)
    (m2 : MIMEType) (hbom : b.bomEncoding = none) (hmeta : b.metaHint = none)
    (hch : m2.charset = none) :
    normalizeHTML (some (Input.nonBytes s)) m = (s, "UTF-8") ∧
    (normalizeHTML (some (Input.bytes b)) m2).2 =
      (if m2.isXML then "UTF-8" else "windows-1252") := by
  constructor
  · rfl
  · simp [normalizeHTML, sniffHTMLEncoding, hbom, hch, hmeta]

/-- A byte input carrying no byte-order mark and no in-document hint. -/
def bDemo : ByteInput := { bomEncoding := none, metaHint := none, decode := fun _ => "" }

/-- The MIME type application/xhtml+xml: an XML type that is not HTML. -/
def mtXhtml : MIMEType := { type := "application", subtype := "xhtml+xml" }

/-- Witness for C5 at concrete inputs: verbatim text stays UTF-8, and a bare
byte input defaults per content type, windows-1252 under text/html and UTF-8
under application/xhtml+xml. -/
theorem normalizeHTML_encoding_witness :
    (normalizeHTML (some (Input.nonBytes "x")) defaultMIMEType = ("x", "UTF-8") ∧
      (normalizeHTML (some (Input.bytes bDemo)) defaultMIMEType).2 =
        (if defaultMIMEType.isXML then "UTF-8" else "windows-1252")) ∧
    (normalizeHTML (some (Input.bytes bDemo)) mtXhtml).2 =
      (if mtXhtml.isXML then "UTF-8" else "windows-1252") :=
  ⟨normalizeHTML_encoding "x" defaultMIMEType bDemo defaultMIMEType rfl rfl rfl,
   (normalizeHTML_encoding "x" defaultMIMEType bDemo mtXhtml rfl rfl rfl).2⟩

/-- Counterexample for C6 as stated: a construction that does not supply the
cookie-store option but supplies content type text/plain fails with the
content-type RangeError, so a construction without the cookie-store option
does not always succeed. -/
theorem construct_default_cookieJar_counterexample :
    cOptsPlain.cookieJar = none ∧
    (JSDOM.construct none cOptsPlain noFailCollab 0).2 =
      Except.error (JsdomError.rangeError
        (mtPlain.essence ++ " was not a HTML or XML content type")) :=
  ⟨rfl, rfl⟩

/-- C6 (amended): in every construction where the cookie-store option is not
supplied and which succeeds, the configuration gave the window's document a
newly constructed empty cookie jar. -/
theorem construct_default_cookieJar (input : Option Input) (opts : Options)
    (c : Collaborators) (id : Nat) (w : WindowImpl)
    (hcj : opts.cookieJar = none)
    (h : (JSDOM.construct input opts c id).2 = Except.ok w) :
    w._document.cookieJar = CookieJar.new ∧ w._document.cookieJar.cookies = [] := by
  obtain ⟨t, htr, hw, -, -, -, -, -⟩ := construct_ok_inv input opts c id w h
  obtain ⟨-, hcjr, -⟩ := transformOptions_ok_inv _ _ _ _ htr
  subst hw
  constructor
  · show t.windowOptions.cookieJar = CookieJar.new
    rw [hcjr, hcj]
    rfl
  · show (t.windowOptions.cookieJar).cookies = []
    rw [hcjr, hcj]
    rfl

/-- The windowOptions record produced by a default construction. -/
def defaultWindowOptions : WindowOptions :=
  { url := "about:blank", referrer := "", contentType := "text/html"
    parsingMode := "html"
    parseOptions := { sourceCodeLocationInfo := false, scriptingEnabled := false }
    encoding := "UTF-8", cookieJar := CookieJar.new
    pretendToBeVisual := false, storageQuota := 5000000 }

/-- Witness for the amended C6: the default construction at identity 3
succeeds without a supplied cookie jar, and its document carries the
empty jar. -/
theorem construct_default_cookieJar_witness :
    (createWindow defaultWindowOptions 3)._document.cookieJar.cookies = [] :=
  (construct_default_cookieJar none {} noFailCollab 3
    (createWindow defaultWindowOptions 3) rfl rfl).2

/-- C7 (amended): every construction with includeNodeLocations and an XML
content type fails before any object is built (empty trace, no window
returned); when the supplied base and referrer URLs, if any, are valid, the
failure is the invalid-configuration TypeError for location tracking; an
invalid URL makes the construction fail even earlier, with the URL-parse
error instead. -/
theorem construct_nodeLocations_xml_fails (input : Option Input) (opts : Options)
    (c : Collaborators) (id : Nat) (mt : MIMEType)
    (hct : opts.contentType = some mt) (hhtml : mt.isHTML = false)
    (hxml : mt.isXML = true) (hinc : opts.includeNodeLocations = true) :
    (JSDOM.construct input opts c id).1 = [] ∧
    (∀ w, (JSDOM.construct input opts c id).2 ≠ Except.ok w) ∧
    (∀ u r, resolveURL opts.url "about:blank" = Except.ok u →
      resolveURL opts.referrer "" = Except.ok r →
      (JSDOM.construct input opts c id).2 = Except.error (JsdomError.typeError
        "Cannot set includeNodeLocations to true with an XML content type")) := by
  rcases hu : resolveURL opts.url "about:blank" with e | u
  · have htr : transformOptions opts (normalizeHTML input mt).2 mt = Except.error e := by
      unfold transformOptions
      rw [hhtml, hxml, hu]
      rfl
    have hc : JSDOM.construct input opts c id = ([], Except.error e) := by
      unfold JSDOM.construct
      rw [hct]
      simp only [Option.getD_some]
      rw [htr]
    refine ⟨by rw [hc], fun w hw => ?_, fun u2 r2 hu2 _ => ?_⟩
    · rw [hc] at hw
      exact Except.noConfusion hw
    · exact Except.noConfusion hu2
  · rcases hr : resolveURL opts.referrer "" with e | r
    · have htr : transformOptions opts (normalizeHTML input mt).2 mt = Except.error e := by
        unfold transformOptions
        rw [hhtml, hxml, hu, hr]
        rfl
      have hc : JSDOM.construct input opts c id = ([], Except.error e) := by
        unfold JSDOM.construct
        rw [hct]
        simp only [Option.getD_some]
        rw [htr]
      refine ⟨by rw [hc], fun w hw => ?_, fun u2 r2 _ hr2 => ?_⟩
      · rw [hc] at hw
        exact Except.noConfusion hw
      · exact Except.noConfusion hr2
    · have htr : transformOptions opts (normalizeHTML input mt).2 mt =
          Except.error (JsdomError.typeError
            "Cannot set includeNodeLocations to true with an XML content type") := by
        unfold transformOptions
        rw [hhtml, hxml, hu, hr, hinc]
        rfl
      have hc : JSDOM.construct input opts c id = ([], Except.error (JsdomError.typeError
          "Cannot set includeNodeLocations to true with an XML content type")) := by
        unfold JSDOM.construct
        rw [hct]
        simp only [Option.getD_some]
        rw [htr]
      refine ⟨by rw [hc], fun w hw => ?_, fun u2 r2 _ _ => by rw [hc]⟩
      rw [hc] at hw
      exact Except.noConfusion hw

/-- Options with content type application/xhtml+xml, includeNodeLocations set,
and the unparseable URL nourl. -/
def cOpts7 : Options :=
  { contentType := some mtXhtml, url := some "nourl", includeNodeLocations := true }

/-- Counterexample for C7 as stated: with an XML content type and
includeNodeLocations set but an unparseable url option, the construction
fails with the URL-parse error, which is not an invalid-configuration
error. -/
theorem construct_nodeLocations_xml_counterexample :
    cOpts7.includeNodeLocations = true ∧ mtXhtml.isXML = true ∧
    mtXhtml.isHTML = false ∧
    (JSDOM.construct none cOpts7 noFailCollab 0).2 =
      Except.error (JsdomError.urlParseError "nourl") ∧
    JsdomError.isInvalidConfiguration (JsdomError.urlParseError "nourl") = false :=
  ⟨rfl, by decide, by decide, rfl, rfl⟩

/-- Options with content type application/xhtml+xml and includeNodeLocations
set, with both URL options absent. -/
def cOpts7v : Options := { contentType := some mtXhtml, includeNodeLocations := true }

/-- Witness for the amended C7: with absent (hence valid) URLs the failure is
the invalid-configuration TypeError and the trace is empty. -/
theorem construct_nodeLocations_xml_fails_witness :
    (JSDOM.construct none cOpts7v noFailCollab 0).1 = [] ∧
    (JSDOM.construct none cOpts7v noFailCollab 0).2 =
      Except.error (JsdomError.typeError
        "Cannot set includeNodeLocations to true with an XML content type") := by
  have h := construct_nodeLocations_xml_fails none cOpts7v noFailCollab 0 mtXhtml rfl
    (by decide) (by decide) rfl
  exact ⟨h.1, h.2.2 "about:blank" "" rfl rfl⟩

/-- C8: on any successfully constructed instance, nodeLocation raises the
usage error exactly when includeNodeLocations was not enabled at construction;
when it was enabled, the call returns the node's recorded source-location
metadata; and in both cases the object-model state comes back unchanged. -/
theorem nodeLocation_usage (input : Option Input) (opts : Options) (c : Collaborators)
    (id : Nat) (w : WindowImpl) (node : NodeImpl)
    (h : (JSDOM.construct input opts c id).2 = Except.ok w) :
    ((JSDOM.nodeLocation w node).1 = Except.error (JsdomError.usageError
        "Location information was not saved for this jsdom. Use includeNodeLocations during creation.")
      ↔ opts.includeNodeLocations = false) ∧
    (opts.includeNodeLocations = true →
      (JSDOM.nodeLocation w node).1 = Except.ok node.sourceCodeLocation) ∧
    (JSDOM.nodeLocation w node).2 = w := by
  obtain ⟨t, htr, hw, -, -, -, -, -⟩ := construct_ok_inv input opts c id w h
  obtain ⟨hflag, -, -⟩ := transformOptions_ok_inv _ _ _ _ htr
  have hdoc : w._document.parseOptions.sourceCodeLocationInfo = opts.includeNodeLocations := by
    rw [hw]
    exact hflag
  unfold JSDOM.nodeLocation
  rw [hdoc]
  cases hin : opts.includeNodeLocations <;> simp

/-- The windowOptions record produced by a construction with
includeNodeLocations enabled. -/
def locWindowOptions : WindowOptions :=
  { defaultWindowOptions with
    parseOptions := { sourceCodeLocationInfo := true, scriptingEnabled := false } }

/-- Options enabling includeNodeLocations with the default content type. -/
def cOptsLoc : Options := { includeNodeLocations := true }

/-- A node with a recorded source location. -/
def demoNode : NodeImpl :=
  { sourceCodeLocation := some { startLine := 1, startCol := 1, endLine := 2, endCol := 5 } }

/-- Witness for C8: on a construction with includeNodeLocations enabled,
nodeLocation returns the node's recorded location. -/
theorem nodeLocation_usage_witness :
    (JSDOM.nodeLocation (createWindow locWindowOptions 5) demoNode).1 =
      Except.ok demoNode.sourceCodeLocation :=
  (nodeLocation_usage none cOptsLoc noFailCollab 5
    (createWindow locWindowOptions 5) demoNode rfl).2.1 rfl

/-- C9: the shared fragment document is created at most once: from a state
with no shared document, the first fragment call performs exactly one
full-document construction and caches the document, the second call performs
none, leaves the cache untouched and is backed by the same document, the two
calls return distinct fresh fragments, and from any state that already holds
the shared document a fragment call constructs nothing and reuses it. -/
theorem fragment_singleton (st : FragmentState) (s1 s2 : String)
    (h : st.sharedFragmentDocument = none) :
    ((JSDOM.fragment s1 st).2).constructions = st.constructions + 1 ∧
    ((JSDOM.fragment s2 (JSDOM.fragment s1 st).2).2).constructions =
      ((JSDOM.fragment s1 st).2).constructions ∧
    (JSDOM.fragment s2 (JSDOM.fragment s1 st).2).1.ownerDocument =
      (JSDOM.fragment s1 st).1.ownerDocument ∧
    ((JSDOM.fragment s1 st).2).sharedFragmentDocument =
      some ((JSDOM.fragment s1 st).1.ownerDocument) ∧
    ((JSDOM.fragment s2 (JSDOM.fragment s1 st).2).2).sharedFragmentDocument =
      ((JSDOM.fragment s1 st).2).sharedFragmentDocument ∧
    (JSDOM.fragment s1 st).1.nodeId ≠
      (JSDOM.fragment s2 (JSDOM.fragment s1 st).2).1.nodeId ∧
    (∀ (st2 : FragmentState) (d : Nat) (s : String),
      st2.sharedFragmentDocument = some d →
      ((JSDOM.fragment s st2).2).constructions = st2.constructions ∧
      ((JSDOM.fragment s st2).2).sharedFragmentDocument = some d ∧
      (JSDOM.fragment s st2).1.ownerDocument = d) := by
  have h1 : JSDOM.fragment s1 st =
      ({ nodeId := st.nextNodeId, ownerDocument := st.nextDocId, contents := s1 },
       { sharedFragmentDocument := some st.nextDocId, nextDocId := st.nextDocId + 1,
         nextNodeId := st.nextNodeId + 1, constructions := st.constructions + 1 }) := by
    unfold JSDOM.fragment
    rw [h]
  have hgen : ∀ (st2 : FragmentState) (d : Nat) (s : String),
      st2.sharedFragmentDocument = some d →
      JSDOM.fragment s st2 =
        ({ nodeId := st2.nextNodeId, ownerDocument := d, contents := s },
         { st2 with nextNodeId := st2.nextNodeId + 1 }) := by
    intro st2 d s h2
    unfold JSDOM.fragment
    rw [h2]
  have h2 := hgen (JSDOM.fragment s1 st).2 st.nextDocId s2 (by rw [h1])
  refine ⟨by rw [h1], by rw [h2], ?_, by rw [h1], by rw [h2], ?_,
    fun st2 d s hst2 => ?_⟩
  · rw [h2, h1]
  · rw [h2, h1]
    simp
  · rw [hgen st2 d s hst2]
    exact ⟨rfl, hst2, rfl⟩

/-- The initial fragment-module state: no shared document yet. -/
def st0 : FragmentState :=
  { sharedFragmentDocument := none, nextDocId := 0, nextNodeId := 0, constructions := 0 }

/-- Witness for C9 at the initial state: one construction for the first call,
none for the second, and the same backing document for both fragments. -/
theorem fragment_singleton_witness :
    ((JSDOM.fragment "a" st0).2).constructions = st0.constructions + 1 ∧
    ((JSDOM.fragment "b" (JSDOM.fragment "a" st0).2).2).constructions =
      ((JSDOM.fragment "a" st0).2).constructions ∧
    (JSDOM.fragment "b" (JSDOM.fragment "a" st0).2).1.ownerDocument =
      (JSDOM.fragment "a" st0).1.ownerDocument := by
  have h := fragment_singleton st0 "a" "b" rfl
  exact ⟨h.1, h.2.1, h.2.2.1⟩

/-- C10: an omitted construction input is treated as the empty markup string,
and any non-byte input is used through its string conversion (numbers and
arbitrary objects arrive stringified), with resolved encoding label UTF-8 in
every such case. -/
theorem normalizeHTML_default_input (m m2 : MIMEType) (s : String) :
    normalizeHTML none m = ("", "UTF-8") ∧
    normalizeHTML (some (Input.nonBytes s)) m2 = (s, "UTF-8") :=
  ⟨rfl, rfl⟩

end Jsdom
